import Mathlib

/-!
Shallow embedding of the Financial Projection & Optimization Engine of the
finwise backend (`backend/app/services/`): the debt optimizer
(`debt_optimizer.py`), the goal projector (`goal_projector.py`) and the
cash-flow forecaster (`cashflow_forecaster.py`).  Monetary quantities are
embedded as rationals; Python's `round(x, 2)` (banker's rounding to two
decimals) is embedded exactly.
-/

namespace FinWise

/-- Python's `round` to the nearest integer: round-half-to-even
(banker's rounding). -/
def rhe (x : ℚ) : ℤ :=
  if x - ⌊x⌋ < 1/2 then ⌊x⌋
  else if 1/2 < x - ⌊x⌋ then ⌊x⌋ + 1
  else if ⌊x⌋ % 2 = 0 then ⌊x⌋ else ⌊x⌋ + 1

/-- Python's `round(x, 2)`: banker's rounding to two decimal places. -/
def round2 (x : ℚ) : ℚ := (rhe (x * 100) : ℚ) / 100

/- ------------------------------------------------------------------
   debt_optimizer.py
   ------------------------------------------------------------------ -/

/-- One entry of the repayment schedule built by
`DebtOptimizer.calculate_repayment_schedule` (the `date` field, pure
formatting, is omitted). -/
structure ScheduleEntry where
  month : ℕ
  payment : ℚ
  principal : ℚ
  interest : ℚ
  remaining_balance : ℚ
deriving DecidableEq, Repr

/-- The `for month in range(1, max_months + 1)` loop of
`calculate_repayment_schedule`, with the remaining fuel
`max_months + 1 - month` as the recursion measure.  Returns the schedule
built so far together with the final value of the `remaining_balance`
loop variable.  The `break` at the bottom of the Python loop body is
subsumed by the `remaining_balance <= 0` test at the top of the next
iteration (it changes neither the schedule nor the final balance). -/
def scheduleAux (monthly_rate payment : ℚ) : ℕ → ℕ → ℚ → List ScheduleEntry × ℚ
  | 0, _, bal => ([], bal)
  | fuel + 1, month, bal =>
    if bal ≤ 0 then ([], bal)
    else
      let interest := bal * monthly_rate
      let principal0 := min (payment - interest) bal
      let principal := if principal0 < 0 then 0 else principal0
      let bal' := bal - principal
      let rest := scheduleAux monthly_rate payment fuel (month + 1) bal'
      (⟨month, round2 payment, round2 principal, round2 interest,
        round2 (max 0 bal')⟩ :: rest.1, rest.2)

/-- Embeds `DebtOptimizer.calculate_repayment_schedule`: month-by-month schedule
with the default cap `max_months = 360`. -/
def calculate_repayment_schedule (principal annual_interest_rate monthly_payment : ℚ) :
    List ScheduleEntry :=
  (scheduleAux (annual_interest_rate / 100 / 12) monthly_payment 360 1 principal).1

/-- The final value of the `remaining_balance` loop variable of
`calculate_repayment_schedule`. -/
def finalRemaining (principal annual_interest_rate monthly_payment : ℚ) : ℚ :=
  (scheduleAux (annual_interest_rate / 100 / 12) monthly_payment 360 1 principal).2

/-- A debt as consumed by `DebtOptimizer.optimize_debt_strategy`
(a dict with `id`, `name`, `remainingAmount`, `interestRate`,
`monthlyPayment`). -/
structure Debt where
  id : ℕ
  name : String
  remainingAmount : ℚ
  interestRate : ℚ
  monthlyPayment : ℚ
deriving DecidableEq, Repr

/-- The inner `while remaining > 0 and months < 360` loop of
`DebtOptimizer._simulate_strategy` for a single debt; fuel `360 - months`
is the recursion measure.  Returns `(months, interest_paid)`. -/
def simulateDebtAux (rate payment : ℚ) : ℕ → ℚ → ℚ → ℕ → ℕ × ℚ
  | 0, _, ip, m => (m, ip)
  | fuel + 1, remaining, ip, m =>
    if remaining ≤ 0 then (m, ip)
    else
      let interest := remaining * rate
      let principal := min (payment - interest) remaining
      simulateDebtAux rate payment fuel (remaining - principal) (ip + interest) (m + 1)

/-- Per-debt amortization of `_simulate_strategy`: the debt's own
`monthlyPayment` plus the full shared `extra_budget`, capped at 360
months.  Returns `(months, interest_paid)`. -/
def simulateDebt (debt : Debt) (extra_budget : ℚ) : ℕ × ℚ :=
  simulateDebtAux (debt.interestRate / 100 / 12) (debt.monthlyPayment + extra_budget)
    360 debt.remainingAmount 0 0

/-- One element of the `debts` list of a `_simulate_strategy` result. -/
structure DebtResult where
  id : ℕ
  name : String
  months_to_payoff : ℕ
  total_interest : ℚ
deriving DecidableEq, Repr

/-- A `_simulate_strategy` result. -/
structure StrategyResult where
  total_months : ℕ
  total_interest : ℚ
  debts : List DebtResult
deriving DecidableEq, Repr

/-- The debt ordering of `_simulate_strategy`: Python's stable `sorted`
by `interestRate` descending for `"avalanche"`, by `remainingAmount`
ascending otherwise (snowball). -/
def sortDebts (debts : List Debt) (strategy : String) : List Debt :=
  if strategy = "avalanche" then
    debts.mergeSort (fun a b => decide (b.interestRate ≤ a.interestRate))
  else
    debts.mergeSort (fun a b => decide (a.remainingAmount ≤ b.remainingAmount))

/-- Embeds `DebtOptimizer._simulate_strategy`: each debt amortized independently
with its own minimum plus the full extra budget; aggregate months is the
running `max`, aggregate interest the sum. -/
def simulate_strategy (debts : List Debt) (extra_budget : ℚ) (strategy : String) :
    StrategyResult :=
  let sorted_debts := sortDebts debts strategy
  { total_months := (sorted_debts.map (fun d => (simulateDebt d extra_budget).1)).foldl max 0
    total_interest := round2 ((sorted_debts.map (fun d => (simulateDebt d extra_budget).2)).sum)
    debts := sorted_debts.map (fun d =>
      ⟨d.id, d.name, (simulateDebt d extra_budget).1,
        round2 (simulateDebt d extra_budget).2⟩) }

/-- An `optimize_debt_strategy` result for a non-empty debt list. -/
structure OptimizationResult where
  recommended_strategy : String
  avalanche : StrategyResult
  snowball : StrategyResult
  interest_savings : ℚ
deriving DecidableEq, Repr

/-- Embeds `DebtOptimizer.optimize_debt_strategy`.  The empty-debt early return
(`{"strategy": "none", ...}`) is embedded as `none`. -/
def optimize_debt_strategy (debts : List Debt) (extra_monthly_budget : ℚ) :
    Option OptimizationResult :=
  if debts = [] then none
  else
    let avalanche_result := simulate_strategy debts extra_monthly_budget "avalanche"
    let snowball_result := simulate_strategy debts extra_monthly_budget "snowball"
    let avalanche_total_interest := (avalanche_result.debts.map (·.total_interest)).sum
    let snowball_total_interest := (snowball_result.debts.map (·.total_interest)).sum
    some
      { recommended_strategy :=
          if avalanche_total_interest < snowball_total_interest then "avalanche"
          else "snowball"
        avalanche := avalanche_result
        snowball := snowball_result
        interest_savings := round2 |avalanche_total_interest - snowball_total_interest| }

/- ------------------------------------------------------------------
   goal_projector.py
   ------------------------------------------------------------------ -/

/-- A calendar date at the (year, month) granularity used by
`GoalProjector.calculate_goal_projection`'s months arithmetic. -/
structure YMDate where
  year : ℤ
  month : ℤ
deriving DecidableEq, Repr

/-- Embeds `GoalProjector._determine_status`. -/
def determine_status (current target needed available : ℚ) : String :=
  if target ≤ current then "achieved"
  else if available * 1.2 < needed then "behind"
  else if available < needed then "at-risk"
  else "on-track"

/-- Embeds `GoalProjector._calculate_probability`; the `ratio` local is named `q` here. -/
def calculate_probability (needed available : ℚ) : ℚ :=
  if available ≤ 0 then 0.1
  else
    let q := if 0 < needed then available / needed else 10
    if 1.2 ≤ q then 0.95
    else if 1 ≤ q then 0.85
    else if 0.8 ≤ q then 0.70
    else if 0.6 ≤ q then 0.50
    else if 0.4 ≤ q then 0.30
    else 0.15

/-- The fields of the `calculate_goal_projection` result dict that carry
numeric or status content (date-formatting fields omitted). -/
structure GoalProjection where
  target_amount : ℚ
  current_amount : ℚ
  remaining_amount : ℚ
  months_remaining : ℤ
  monthly_contribution_needed : ℚ
  available_monthly : ℚ
  estimated_months : ℤ
  status : String
  probability : ℚ
  on_track : Bool
deriving DecidableEq, Repr

/-- The `months_remaining` computation of `calculate_goal_projection`:
whole-month difference between `now` and the target date, clamped at 0. -/
def goalMonthsRemaining (now target_date : YMDate) : ℤ :=
  max 0 ((target_date.year - now.year) * 12 + (target_date.month - now.month))

/-- The `monthly_contribution_needed` computation of
`calculate_goal_projection`: remaining amount divided by the months
remaining, or the remaining amount itself when no months remain. -/
def neededContribution (target_amount current_amount : ℚ) (now target_date : YMDate) : ℚ :=
  if 0 < goalMonthsRemaining now target_date then
    (target_amount - current_amount) / (goalMonthsRemaining now target_date : ℚ)
  else target_amount - current_amount

/-- Embeds `GoalProjector.calculate_goal_projection`, with `datetime.utcnow()`
passed explicitly as `now`. -/
def calculate_goal_projection (target_amount current_amount : ℚ)
    (now target_date : YMDate) (monthly_income monthly_expenses : ℚ) :
    GoalProjection :=
  let months_remaining : ℤ := goalMonthsRemaining now target_date
  let remaining_amount := target_amount - current_amount
  let monthly_contribution_needed :=
    neededContribution target_amount current_amount now target_date
  let available_monthly := monthly_income - monthly_expenses
  let status := determine_status current_amount target_amount
    monthly_contribution_needed available_monthly
  let estimated_months : ℤ :=
    if 0 < available_monthly then ⌈remaining_amount / available_monthly⌉ else 999
  { target_amount := round2 target_amount
    current_amount := round2 current_amount
    remaining_amount := round2 remaining_amount
    months_remaining := months_remaining
    monthly_contribution_needed := round2 monthly_contribution_needed
    available_monthly := round2 available_monthly
    estimated_months := estimated_months
    status := status
    probability := calculate_probability monthly_contribution_needed available_monthly
    on_track := status = "on-track" ∨ status = "achieved" }

/- ------------------------------------------------------------------
   cashflow_forecaster.py
   ------------------------------------------------------------------ -/

/-- Transaction direction. -/
inductive TransactionType where
  | income
  | expense
deriving DecidableEq, Repr

/-- A historical transaction as read by
`CashFlowForecaster._get_historical_averages`; `date` is a day index
relative to `current_date` (day 0), so the 90-day lookback window is
`[-90, 0)`. -/
structure Transaction where
  ttype : TransactionType
  amount : ℚ
  date : ℤ
deriving DecidableEq, Repr

/-- A `RecurringTransaction` row as read by `forecast_balance` (already
restricted to one user); `next_date` is a day index relative to
`current_date`. -/
structure RecurringTransaction where
  ttype : TransactionType
  amount : ℚ
  next_date : ℤ
  is_active : Bool
deriving DecidableEq, Repr

/-- Embeds `CashFlowForecaster._get_historical_averages` restricted to its
`daily_average` field: sum the matching-type transactions in the
90-day lookback window; `0` if the total is `0`, otherwise
`round(total / 90, 2)` (the window length `(end - start).days` is the
fixed `lookback_days = 90`). -/
def historicalDailyAverage (txns : List Transaction) (tt : TransactionType) : ℚ :=
  let total :=
    ((txns.filter (fun t => decide (t.ttype = tt ∧ -90 ≤ t.date ∧ t.date < 0))).map
      (·.amount)).sum
  if total = 0 then 0 else round2 (total / 90)

/-- Embeds `CashFlowForecaster._is_due_on_date`: a recurring transaction is due
exactly when its `next_date` equals the checked calendar day. -/
def is_due_on_date (r : RecurringTransaction) (d : ℕ) : Bool :=
  r.next_date = (d : ℤ)

/-- The inner loop over `recurring_transactions` of `forecast_balance`:
the summed amount of active recurring transactions of type `tt` due on
day `d`. -/
def dueSum (recs : List RecurringTransaction) (tt : TransactionType) (d : ℕ) : ℚ :=
  ((recs.filter (fun r => r.is_active && decide (r.ttype = tt) && is_due_on_date r d)).map
    (·.amount)).sum

/-- Computes `day_expenses` after the historical fallback: the recurring sum if it
is nonzero, else the historical daily expense average. -/
def dayExpenses (txns : List Transaction) (recs : List RecurringTransaction) (d : ℕ) : ℚ :=
  let s := dueSum recs TransactionType.expense d
  if s = 0 then historicalDailyAverage txns TransactionType.expense else s

/-- Computes `day_income` after the historical fallback: the recurring sum if it
is nonzero, else the historical daily income average. -/
def dayIncome (txns : List Transaction) (recs : List RecurringTransaction) (d : ℕ) : ℚ :=
  let s := dueSum recs TransactionType.income d
  if s = 0 then historicalDailyAverage txns TransactionType.income else s

/-- A `daily_balances` entry (`date` is the day offset from today). -/
structure DailyBalancePoint where
  date : ℕ
  balance : ℚ
  income : ℚ
  expenses : ℚ
  net : ℚ
deriving DecidableEq, Repr

/-- The `current_balance` accumulator after processing day `d`: the
running balance `current_balance = current_balance + day_income -
day_expenses` unfolded as the starting balance plus the prefix sum of
daily nets. -/
def balanceAfter (txns : List Transaction) (recs : List RecurringTransaction)
    (starting_balance : ℚ) (d : ℕ) : ℚ :=
  starting_balance +
    ((List.range (d + 1)).map (fun k => dayIncome txns recs k - dayExpenses txns recs k)).sum

/-- The `daily_balances` list built by the day-by-day projection loop of
`forecast_balance`. -/
def dailyBalances (txns : List Transaction) (recs : List RecurringTransaction)
    (starting_balance : ℚ) (forecast_days : ℕ) : List DailyBalancePoint :=
  (List.range (forecast_days + 1)).map (fun d =>
    { date := d
      balance := round2 (balanceAfter txns recs starting_balance d)
      income := round2 (dayIncome txns recs d)
      expenses := round2 (dayExpenses txns recs d)
      net := round2 (dayIncome txns recs d - dayExpenses txns recs d) })

/-- Embeds `min(daily_balances, key=...)` on balances: Python's `min`
keeps the first element on ties (a later element replaces the current
minimum only when strictly smaller). -/
def minBalanceDay : List DailyBalancePoint → DailyBalancePoint
  | [] => ⟨0, 0, 0, 0, 0⟩
  | p :: ps => ps.foldl (fun best q => if q.balance < best.balance then q else best) p

/-- The runway computation of `forecast_balance`: index of the first day
whose (rounded) balance is `≤ 0`; the sentinel `forecast_days + 1` if
none. -/
def runwayDays (daily : List DailyBalancePoint) (forecast_days : ℕ) : ℕ :=
  match daily.findIdx? (fun p => decide (p.balance ≤ 0)) with
  | some i => i
  | none => forecast_days + 1

/-- The fields of the `forecast_balance` result dict the verified claims
are about (formatting fields, warnings text and summary rollups
omitted). -/
structure ForecastResult where
  starting_balance : ℚ
  forecast_days : ℕ
  daily_balances : List DailyBalancePoint
  min_balance : ℚ
  min_balance_date : ℕ
  runway_days : ℕ
deriving DecidableEq, Repr

/-- A `Notification` row as far as `_create_low_balance_notification`
reads and writes it: type tag, creation day (relative to today, so
`created_at >= today_start` is `0 ≤ created_day`), and payload. -/
structure Notification where
  ntype : String
  created_day : ℤ
  runway_days : ℕ
  min_balance : ℚ
deriving DecidableEq, Repr

/-- Embeds `CashFlowForecaster._create_low_balance_notification`: adds a
low-balance notification to the store unless one was already created
today. -/
def create_low_balance_notification (store : List Notification)
    (runway_days : ℕ) (projected_min_balance : ℚ) : List Notification :=
  if store.any (fun n => n.ntype = "low_balance" && decide (0 ≤ n.created_day)) then store
  else store ++ [⟨"low_balance", 0, runway_days, projected_min_balance⟩]

/-- Embeds `CashFlowForecaster.forecast_balance`, with the database session
split into its read part (historical transactions, recurring
transactions) and its writable part (the notification store).  Returns
the forecast result together with the notification store after the
call: the `runway_days <= 30` warning branch creates a low-balance
notification. -/
def forecast_balance (store : List Notification) (txns : List Transaction)
    (recs : List RecurringTransaction) (starting_balance : ℚ) (forecast_days : ℕ) :
    ForecastResult × List Notification :=
  let daily := dailyBalances txns recs starting_balance forecast_days
  let min_day := minBalanceDay daily
  let runway := runwayDays daily forecast_days
  let store' :=
    if runway ≤ 30 then create_low_balance_notification store runway min_day.balance
    else store
  ({ starting_balance := starting_balance
     forecast_days := forecast_days
     daily_balances := daily
     min_balance := min_day.balance
     min_balance_date := min_day.date
     runway_days := runway }, store')

/- ------------------------------------------------------------------
   Helper lemmas
   ------------------------------------------------------------------ -/

lemma scheduleAux_fst_length (r p : ℚ) :
    ∀ (fuel m : ℕ) (bal : ℚ), (scheduleAux r p fuel m bal).1.length ≤ fuel := by
  intro fuel
  induction fuel with
  | zero => intro m bal; simp [scheduleAux]
  | succ n ih =>
    intro m bal
    by_cases hb : bal ≤ 0
    · simp [scheduleAux, hb]
    · simp only [scheduleAux, if_neg hb, List.length_cons]
      exact Nat.succ_le_succ (ih _ _)

lemma scheduleAux_snd_nonneg (r p : ℚ) :
    ∀ (fuel m : ℕ) (bal : ℚ), 0 ≤ bal → 0 ≤ (scheduleAux r p fuel m bal).2 := by
  intro fuel
  induction fuel with
  | zero => intro m bal h; simpa [scheduleAux] using h
  | succ n ih =>
    intro m bal h
    by_cases hb : bal ≤ 0
    · simpa [scheduleAux, hb] using h
    · push_neg at hb
      simp only [scheduleAux, if_neg (not_le.mpr hb)]
      apply ih
      rcases lt_or_le (min (p - bal * r) bal) 0 with hneg | hpos
      · rw [if_pos hneg]; linarith
      · rw [if_neg (not_lt.mpr hpos)]
        have : min (p - bal * r) bal ≤ bal := min_le_right _ _
        linarith

lemma simulateDebtAux_fst_le (r p : ℚ) :
    ∀ (fuel : ℕ) (rem ip : ℚ) (m : ℕ), (simulateDebtAux r p fuel rem ip m).1 ≤ m + fuel := by
  intro fuel
  induction fuel with
  | zero => intro rem ip m; simp [simulateDebtAux]
  | succ n ih =>
    intro rem ip m
    by_cases hb : rem ≤ 0
    · simp only [simulateDebtAux, if_pos hb]; omega
    · simp only [simulateDebtAux, if_neg hb]
      calc (simulateDebtAux r p n (rem - min (p - rem * r) rem) (ip + rem * r) (m + 1)).1
          ≤ (m + 1) + n := ih _ _ _
        _ ≤ m + (n + 1) := by omega

lemma foldl_max_perm {l₁ l₂ : List ℕ} (h : l₁.Perm l₂) :
    ∀ b : ℕ, l₁.foldl max b = l₂.foldl max b := by
  induction h with
  | nil => intro b; rfl
  | cons x _ ih => intro b; simp only [List.foldl_cons]; exact ih _
  | swap x y l =>
    intro b
    simp only [List.foldl_cons]
    rw [Nat.max_right_comm]
  | trans _ _ ih₁ ih₂ => intro b; rw [ih₁, ih₂]

lemma foldl_max_le {c : ℕ} :
    ∀ (l : List ℕ) (b : ℕ), b ≤ c → (∀ x ∈ l, x ≤ c) → l.foldl max b ≤ c := by
  intro l
  induction l with
  | nil => intro b hb _; simpa using hb
  | cons x xs ih =>
    intro b hb hx
    simp only [List.foldl_cons]
    exact ih _ (max_le hb (hx x (by simp))) fun y hy => hx y (by simp [hy])

lemma round2_zero : round2 0 = 0 := by norm_num [round2, rhe]

lemma rhe_intCast (n : ℤ) : rhe (n : ℚ) = n := by
  have h0 : ((n : ℚ) - ⌊(n : ℚ)⌋) = 0 := by simp
  rw [rhe, h0]
  norm_num

lemma round2_intCast (n : ℤ) : round2 (n : ℚ) = n := by
  have h : ((n : ℚ) * 100) = ((n * 100 : ℤ) : ℚ) := by push_cast; ring
  rw [round2, h, rhe_intCast]
  push_cast
  ring

lemma rhe_pos {x : ℚ} (h : 1 ≤ x) : 1 ≤ rhe x := by
  have hf : (1 : ℤ) ≤ ⌊x⌋ := Int.le_floor.mpr (by exact_mod_cast h)
  rw [rhe]
  split_ifs <;> omega

lemma round2_pos {x : ℚ} (h : 1/100 ≤ x) : 0 < round2 x := by
  rw [round2]
  have h1 : (1 : ℚ) ≤ x * 100 := by linarith
  have h2 : (1 : ℤ) ≤ rhe (x * 100) := rhe_pos h1
  have h3 : (1 : ℚ) ≤ (rhe (x * 100) : ℚ) := by exact_mod_cast h2
  positivity

/- ------------------------------------------------------------------
   Claims C3, C4, C5, C10: debt optimizer
   ------------------------------------------------------------------ -/

lemma simulateDebtAux_nonpos (r p ip : ℚ) (m : ℕ) {rem : ℚ} (h : rem ≤ 0) :
    ∀ fuel, simulateDebtAux r p fuel rem ip m = (m, ip)
  | 0 => rfl
  | fuel + 1 => by simp only [simulateDebtAux, if_pos h]

lemma sortDebts_single (d : Debt) (strategy : String) : sortDebts [d] strategy = [d] := by
  unfold sortDebts
  split <;> simp

lemma simulate_strategy_single_zero (strategy : String) :
    simulate_strategy [⟨1, "card", 0, 0, 0⟩] 0 strategy =
      ⟨0, round2 0, [⟨1, "card", 0, round2 0⟩]⟩ := by
  unfold simulate_strategy
  rw [sortDebts_single]
  have hsim : simulateDebt ⟨1, "card", 0, 0, 0⟩ 0 = (0, 0) :=
    simulateDebtAux_nonpos _ _ _ _ le_rfl 360
  simp [hsim]

/-- C3 counterexample: with a single debt the two strategies' aggregate
interests coincide, yet `optimize_debt_strategy` recommends `"snowball"`,
not `"avalanche"` — a tie does not favor avalanche as claimed. -/
theorem C3_tie_counterexample :
    ∃ res, optimize_debt_strategy [⟨1, "card", 0, 0, 0⟩] 0 = some res ∧
      (res.avalanche.debts.map (·.total_interest)).sum =
        (res.snowball.debts.map (·.total_interest)).sum ∧
      res.recommended_strategy = "snowball" := by
  have hopt : optimize_debt_strategy [⟨1, "card", 0, 0, 0⟩] 0 =
      some { recommended_strategy := "snowball"
             avalanche := ⟨0, round2 0, [⟨1, "card", 0, round2 0⟩]⟩
             snowball := ⟨0, round2 0, [⟨1, "card", 0, round2 0⟩]⟩
             interest_savings :=
               round2 |(([⟨1, "card", 0, round2 0⟩] : List DebtResult).map
                   (·.total_interest)).sum -
                 (([⟨1, "card", 0, round2 0⟩] : List DebtResult).map
                   (·.total_interest)).sum| } := by
    unfold optimize_debt_strategy
    rw [if_neg (by simp)]
    simp only [simulate_strategy_single_zero]
    rw [if_neg (lt_irrefl _)]
  exact ⟨_, hopt, rfl, rfl⟩

/-- C3 (amended): `optimize_debt_strategy` recommends `"avalanche"` when
the avalanche aggregate interest is strictly lower and `"snowball"`
otherwise (so ties favor snowball), and reports `interest_savings` equal
to the rounded absolute difference of the two aggregate interests. -/
theorem C3_recommendation_rule (debts : List Debt) (extra_monthly_budget : ℚ)
    (h : debts ≠ []) :
    ∃ res, optimize_debt_strategy debts extra_monthly_budget = some res ∧
      res.recommended_strategy =
        (if (res.avalanche.debts.map (·.total_interest)).sum <
            (res.snowball.debts.map (·.total_interest)).sum
         then "avalanche" else "snowball") ∧
      res.interest_savings =
        round2 |(res.avalanche.debts.map (·.total_interest)).sum -
          (res.snowball.debts.map (·.total_interest)).sum| := by
  unfold optimize_debt_strategy
  rw [if_neg h]
  exact ⟨_, rfl, rfl, rfl⟩

/-- C3 witness. -/
theorem C3_recommendation_rule_witness :
    ([(⟨1, "card", 0, 0, 0⟩ : Debt)] ≠ []) ∧
      (∃ res, optimize_debt_strategy [⟨1, "card", 0, 0, 0⟩] 0 = some res ∧
        res.recommended_strategy =
          (if (res.avalanche.debts.map (·.total_interest)).sum <
              (res.snowball.debts.map (·.total_interest)).sum
           then "avalanche" else "snowball") ∧
        res.interest_savings =
          round2 |(res.avalanche.debts.map (·.total_interest)).sum -
            (res.snowball.debts.map (·.total_interest)).sum|) :=
  ⟨List.cons_ne_nil _ _, C3_recommendation_rule [⟨1, "card", 0, 0, 0⟩] 0
    (List.cons_ne_nil _ _)⟩

/-- The per-debt results of a strategy are the map of the per-debt
simulation over the sorted list. -/
lemma simulate_strategy_debts (debts : List Debt) (extra : ℚ) (strategy : String) :
    (simulate_strategy debts extra strategy).debts =
      (sortDebts debts strategy).map (fun d =>
        ⟨d.id, d.name, (simulateDebt d extra).1, round2 (simulateDebt d extra).2⟩) := rfl

lemma sortDebts_perm (debts : List Debt) (strategy : String) :
    (sortDebts debts strategy).Perm debts := by
  unfold sortDebts
  split <;> exact List.mergeSort_perm _ _

/-- C4: each debt is amortized independently with its own payment plus
the full extra budget, so the two strategy orderings produce permuted
per-debt results with equal aggregate interest and equal total months;
consequently the reported `interest_savings` is always `0`. -/
theorem C4_strategies_agree (debts : List Debt) (extra_monthly_budget : ℚ) :
    (simulate_strategy debts extra_monthly_budget "avalanche").total_interest =
      (simulate_strategy debts extra_monthly_budget "snowball").total_interest ∧
    (simulate_strategy debts extra_monthly_budget "avalanche").total_months =
      (simulate_strategy debts extra_monthly_budget "snowball").total_months ∧
    ((simulate_strategy debts extra_monthly_budget "avalanche").debts).Perm
      ((simulate_strategy debts extra_monthly_budget "snowball").debts) ∧
    (debts ≠ [] → ∃ res, optimize_debt_strategy debts extra_monthly_budget = some res ∧
      res.interest_savings = 0) := by
  have hperm : (sortDebts debts "avalanche").Perm (sortDebts debts "snowball") :=
    (sortDebts_perm debts "avalanche").trans (sortDebts_perm debts "snowball").symm
  have hdebts : ((simulate_strategy debts extra_monthly_budget "avalanche").debts).Perm
      ((simulate_strategy debts extra_monthly_budget "snowball").debts) := by
    rw [simulate_strategy_debts, simulate_strategy_debts]
    exact hperm.map _
  have hsum : ((simulate_strategy debts extra_monthly_budget "avalanche").debts.map
        (·.total_interest)).sum =
      ((simulate_strategy debts extra_monthly_budget "snowball").debts.map
        (·.total_interest)).sum :=
    (hdebts.map _).sum_eq
  refine ⟨?_, ?_, hdebts, ?_⟩
  · show round2 _ = round2 _
    congr 1
    exact (hperm.map (fun d => (simulateDebt d extra_monthly_budget).2)).sum_eq
  · exact foldl_max_perm (hperm.map (fun d => (simulateDebt d extra_monthly_budget).1)) 0
  · intro h
    unfold optimize_debt_strategy
    rw [if_neg h]
    refine ⟨_, rfl, ?_⟩
    show round2 |((simulate_strategy debts extra_monthly_budget "avalanche").debts.map
        (·.total_interest)).sum -
      ((simulate_strategy debts extra_monthly_budget "snowball").debts.map
        (·.total_interest)).sum| = 0
    rw [sub_eq_zero_of_eq hsum, abs_zero, round2_zero]

/-- C4 witness. -/
theorem C4_strategies_agree_witness :
    ([(⟨1, "card", 0, 0, 0⟩ : Debt)] ≠ []) ∧
      (∃ res, optimize_debt_strategy [⟨1, "card", 0, 0, 0⟩] 0 = some res ∧
        res.interest_savings = 0) :=
  ⟨List.cons_ne_nil _ _,
    (C4_strategies_agree [⟨1, "card", 0, 0, 0⟩] 0).2.2.2 (List.cons_ne_nil _ _)⟩

/-- C5: each monthly step of `calculate_repayment_schedule` charges
interest `balance * (rate/100/12)`, pays principal
`min(payment - interest, balance)` floored at `0`, and decreases the
balance by exactly that principal; and the final remaining balance is
never negative, so a fully amortized debt (final balance `≤ 0`) ends at
exactly `0`. -/
theorem C5_repayment_step_and_final_zero
    (principal annual_interest_rate monthly_payment : ℚ) (h0 : 0 ≤ principal) :
    (∀ (fuel m : ℕ) (bal : ℚ), 0 < bal →
      scheduleAux (annual_interest_rate / 100 / 12) monthly_payment (fuel + 1) m bal =
        (⟨m, round2 monthly_payment,
            round2 (max 0 (min (monthly_payment - bal * (annual_interest_rate / 100 / 12)) bal)),
            round2 (bal * (annual_interest_rate / 100 / 12)),
            round2 (max 0 (bal -
              max 0 (min (monthly_payment - bal * (annual_interest_rate / 100 / 12)) bal)))⟩ ::
          (scheduleAux (annual_interest_rate / 100 / 12) monthly_payment fuel (m + 1)
            (bal - max 0 (min (monthly_payment - bal * (annual_interest_rate / 100 / 12)) bal))).1,
         (scheduleAux (annual_interest_rate / 100 / 12) monthly_payment fuel (m + 1)
            (bal - max 0 (min (monthly_payment - bal * (annual_interest_rate / 100 / 12)) bal))).2)) ∧
    0 ≤ finalRemaining principal annual_interest_rate monthly_payment ∧
    (finalRemaining principal annual_interest_rate monthly_payment ≤ 0 →
      finalRemaining principal annual_interest_rate monthly_payment = 0) := by
  have hmax : ∀ q : ℚ, (if q < 0 then 0 else q) = max 0 q := by
    intro q
    rcases lt_or_le q 0 with hq | hq
    · simp [hq, max_eq_left hq.le]
    · simp [not_lt.mpr hq, max_eq_right hq]
  refine ⟨?_, ?_, ?_⟩
  · intro fuel m bal hbal
    simp only [scheduleAux, if_neg (not_le.mpr hbal)]
    rw [hmax]
  · exact scheduleAux_snd_nonneg _ _ _ _ _ h0
  · intro h
    exact le_antisymm h (scheduleAux_snd_nonneg _ _ _ _ _ h0)

/-- C5 witness: the §8 example debt (principal 5000, rate 18%,
payment 200) is fully amortized and ends at exactly 0. -/
theorem C5_repayment_witness :
    (0 : ℚ) ≤ 5000 ∧
      (0 ≤ finalRemaining 5000 18 200 ∧
        (finalRemaining 5000 18 200 ≤ 0 → finalRemaining 5000 18 200 = 0)) :=
  ⟨by norm_num, (C5_repayment_step_and_final_zero 5000 18 200 (by norm_num)).2⟩

/-- C10: every amortization simulation is a total function that stops at
the 360-month safety cap: the repayment schedule never exceeds 360
entries, each per-debt strategy simulation runs at most 360 monthly
steps, and the aggregate months of a strategy never exceed 360 — for
every input, including payments that do not cover the interest. -/
theorem C10_cap_360 :
    (∀ principal annual_interest_rate monthly_payment : ℚ,
      (calculate_repayment_schedule principal annual_interest_rate monthly_payment).length
        ≤ 360) ∧
    (∀ (debt : Debt) (extra : ℚ), (simulateDebt debt extra).1 ≤ 360) ∧
    (∀ (debts : List Debt) (extra : ℚ) (strategy : String),
      (simulate_strategy debts extra strategy).total_months ≤ 360) := by
  refine ⟨?_, ?_, ?_⟩
  · intro principal r p
    exact scheduleAux_fst_length _ _ 360 1 principal
  · intro debt extra
    simpa using simulateDebtAux_fst_le _ _ 360 debt.remainingAmount 0 0
  · intro debts extra strategy
    apply foldl_max_le _ 0 (by omega)
    intro x hx
    simp only [List.mem_map] at hx
    obtain ⟨d, _, rfl⟩ := hx
    simpa using simulateDebtAux_fst_le _ _ 360 d.remainingAmount 0 0

/- ------------------------------------------------------------------
   Claims C1, C2, C6, C7, C8: forecaster
   ------------------------------------------------------------------ -/

lemma dayIncome_nil (d : ℕ) : dayIncome [] [] d = 0 := by
  simp [dayIncome, dueSum, historicalDailyAverage]

lemma dayExpenses_nil (d : ℕ) : dayExpenses [] [] d = 0 := by
  simp [dayExpenses, dueSum, historicalDailyAverage]

lemma balanceAfter_nil (s : ℚ) (d : ℕ) : balanceAfter [] [] s d = s := by
  simp [balanceAfter, dayIncome_nil, dayExpenses_nil]

lemma balanceAfter_ge (txns : List Transaction) (recs : List RecurringTransaction)
    (s : ℚ) (d : ℕ)
    (h2 : ∀ k, k ≤ d → 0 ≤ dayIncome txns recs k - dayExpenses txns recs k) :
    s ≤ balanceAfter txns recs s d := by
  unfold balanceAfter
  have h : 0 ≤ ((List.range (d + 1)).map
      (fun k => dayIncome txns recs k - dayExpenses txns recs k)).sum := by
    apply List.sum_nonneg
    intro x hx
    obtain ⟨k, hk, rfl⟩ := List.mem_map.mp hx
    exact h2 k (Nat.lt_succ_iff.mp (List.mem_range.mp hk))
  linarith

lemma runway_sentinel (txns : List Transaction) (recs : List RecurringTransaction)
    (s : ℚ) (fd : ℕ) (h1 : 1/100 ≤ s)
    (h2 : ∀ k, k ≤ fd → 0 ≤ dayIncome txns recs k - dayExpenses txns recs k) :
    runwayDays (dailyBalances txns recs s fd) fd = fd + 1 := by
  unfold runwayDays
  rw [List.findIdx?_eq_none_iff.mpr]
  intro p hp
  obtain ⟨d, hd, rfl⟩ := List.mem_map.mp hp
  have hdle : d ≤ fd := Nat.lt_succ_iff.mp (List.mem_range.mp hd)
  have hpos : 0 < round2 (balanceAfter txns recs s d) :=
    round2_pos (le_trans h1 (balanceAfter_ge txns recs s d
      (fun k hk => h2 k (le_trans hk hdle))))
  exact decide_eq_false (not_le.mpr hpos)

/-- C2: every forecast run returns exactly `forecast_days + 1` daily
balance points, whose day offsets are `0, 1, ..., forecast_days` — in
particular a point for day 0 (today) is always present. -/
theorem C2_daily_balances_count (store : List Notification) (txns : List Transaction)
    (recs : List RecurringTransaction) (starting_balance : ℚ) (forecast_days : ℕ) :
    ((forecast_balance store txns recs starting_balance forecast_days).1.daily_balances).length
        = forecast_days + 1 ∧
      ((forecast_balance store txns recs starting_balance
          forecast_days).1.daily_balances).map (·.date) = List.range (forecast_days + 1) := by
  constructor
  · show (dailyBalances txns recs starting_balance forecast_days).length = forecast_days + 1
    simp [dailyBalances]
  · show ((dailyBalances txns recs starting_balance forecast_days).map (·.date))
        = List.range (forecast_days + 1)
    simp [dailyBalances, List.map_map]
    exact List.map_id _

/-- C6 counterexample: with starting balance `0` (which is `≥ 0`), no
obligations and no history every daily net is `0`, yet the runway is `0`
— the day-0 balance `0` already counts as `≤ 0` — not the sentinel
`forecast_days + 1 = 1`. -/
theorem C6_zero_start_counterexample :
    (forecast_balance [] [] [] 0 0).1.runway_days = 0 := by
  show runwayDays (dailyBalances [] [] 0 0) 0 = 0
  have hdb : dailyBalances [] [] 0 0 = [⟨0, 0, 0, 0, 0⟩] := by
    have hr : List.range 1 = [0] := rfl
    simp [dailyBalances, balanceAfter_nil, dayIncome_nil, dayExpenses_nil, round2_zero, hr]
  rw [hdb]
  simp [runwayDays, List.findIdx?_cons]

/-- C6 (amended): if the starting balance is at least one cent (`0.01`,
rather than merely `≥ 0`) and every projected day's net (days `0` to
`forecast_days`) is `≥ 0`, the runway equals the sentinel
`forecast_days + 1`; in general the runway is
the index of the first day whose (rounded) balance is `≤ 0`: every day
strictly before it has positive balance, and the day at the runway
index, when it lies within the horizon, has balance `≤ 0`. -/
theorem C6_runway_rule (store : List Notification) (txns : List Transaction)
    (recs : List RecurringTransaction) (starting_balance : ℚ) (forecast_days : ℕ) :
    ((1/100 ≤ starting_balance →
      (∀ k, k ≤ forecast_days → 0 ≤ dayIncome txns recs k - dayExpenses txns recs k) →
      (forecast_balance store txns recs starting_balance forecast_days).1.runway_days
        = forecast_days + 1)) ∧
    (∀ i p,
      ((forecast_balance store txns recs starting_balance
          forecast_days).1.daily_balances)[i]? = some p →
      (i < (forecast_balance store txns recs starting_balance
          forecast_days).1.runway_days → 0 < p.balance) ∧
      (i = (forecast_balance store txns recs starting_balance
          forecast_days).1.runway_days → p.balance ≤ 0)) ∧
    ((∀ p ∈ (forecast_balance store txns recs starting_balance
        forecast_days).1.daily_balances, 0 < p.balance) →
      (forecast_balance store txns recs starting_balance forecast_days).1.runway_days
        = forecast_days + 1) := by
  refine ⟨fun h1 h2 => runway_sentinel txns recs starting_balance forecast_days h1 h2,
    ?_, ?_⟩
  · intro i p hp
    have hp' : (dailyBalances txns recs starting_balance forecast_days)[i]? = some p := hp
    obtain ⟨hlen, hget⟩ := List.getElem?_eq_some_iff.mp hp'
    have hlength : (dailyBalances txns recs starting_balance forecast_days).length
        = forecast_days + 1 := by simp [dailyBalances]
    show (i < runwayDays (dailyBalances txns recs starting_balance forecast_days)
        forecast_days → 0 < p.balance) ∧
      (i = runwayDays (dailyBalances txns recs starting_balance forecast_days)
        forecast_days → p.balance ≤ 0)
    unfold runwayDays
    rcases hfind : (dailyBalances txns recs starting_balance forecast_days).findIdx?
        (fun q => decide (q.balance ≤ 0)) with _ | j
    · simp only [hfind]
      rw [List.findIdx?_eq_none_iff] at hfind
      have hpm : p ∈ dailyBalances txns recs starting_balance forecast_days :=
        hget ▸ List.getElem_mem hlen
      constructor
      · intro _
        have hfalse := hfind p hpm
        simpa using hfalse
      · intro hi
        rw [hlength] at hlen
        omega
    · simp only [hfind]
      obtain ⟨hj, hpj, hbefore⟩ := List.findIdx?_eq_some_iff_getElem.mp hfind
      constructor
      · intro hlt
        have hfalse := hbefore i hlt
        rw [← hget]
        simpa using hfalse
      · intro hi
        subst hi
        rw [← hget]
        simpa using hpj
  · intro hall
    show runwayDays (dailyBalances txns recs starting_balance forecast_days)
        forecast_days = forecast_days + 1
    unfold runwayDays
    rw [List.findIdx?_eq_none_iff.mpr]
    intro p hp
    exact decide_eq_false (not_le.mpr (hall p hp))

/-- C6 witness. -/
theorem C6_runway_rule_witness :
    (forecast_balance [] [] [] 1000 0).1.runway_days = 0 + 1 :=
  (C6_runway_rule [] [] [] 1000 0).1 (by norm_num)
    (fun k _ => by rw [dayIncome_nil, dayExpenses_nil]; norm_num)

/-- C7 counterexample: `forecast_balance` is not write-free — with
starting balance `-1` the runway is `0 ≤ 30`, and the call appends a
low-balance notification to the (initially empty) notification store. -/
theorem C7_write_counterexample :
    (forecast_balance [] [] [] (-1) 0).2 ≠ ([] : List Notification) := by
  have hm : round2 (-1) = -1 := by
    have h := round2_intCast (-1)
    norm_num at h
    exact h
  have hdb : dailyBalances [] [] (-1) 0 = [⟨0, -1, 0, 0, 0⟩] := by
    have hr : List.range 1 = [0] := rfl
    simp [dailyBalances, balanceAfter_nil, dayIncome_nil, dayExpenses_nil, round2_zero,
      hr, hm]
  have hrun : runwayDays (dailyBalances [] [] (-1) 0) 0 = 0 := by
    rw [hdb]
    norm_num [runwayDays, List.findIdx?_cons]
  show (if runwayDays (dailyBalances [] [] (-1) 0) 0 ≤ 30 then
      create_low_balance_notification [] (runwayDays (dailyBalances [] [] (-1) 0) 0)
        (minBalanceDay (dailyBalances [] [] (-1) 0)).balance
    else []) ≠ []
  rw [hrun, if_pos (by norm_num)]
  simp [create_low_balance_notification]

/-- C7 (amended): `forecast_balance` reads its inputs and returns fresh
value objects, but it is not entirely write-free: when the computed
runway is `≤ 30` days and no low-balance notification was already
created today it appends one low-balance notification to the store;
whenever the runway exceeds 30 days, or such a notification already
exists, the notification store is left unchanged. -/
theorem C7_store_effect (store : List Notification) (txns : List Transaction)
    (recs : List RecurringTransaction) (starting_balance : ℚ) (forecast_days : ℕ) :
    (30 < (forecast_balance store txns recs starting_balance forecast_days).1.runway_days →
      (forecast_balance store txns recs starting_balance forecast_days).2 = store) ∧
    ((forecast_balance store txns recs starting_balance forecast_days).1.runway_days ≤ 30 →
      (store.any (fun n => n.ntype = "low_balance" && decide (0 ≤ n.created_day)) = true →
        (forecast_balance store txns recs starting_balance forecast_days).2 = store) ∧
      (store.any (fun n => n.ntype = "low_balance" && decide (0 ≤ n.created_day)) = false →
        (forecast_balance store txns recs starting_balance forecast_days).2 =
          store ++ [⟨"low_balance", 0,
            (forecast_balance store txns recs starting_balance forecast_days).1.runway_days,
            (forecast_balance store txns recs starting_balance
              forecast_days).1.min_balance⟩])) := by
  constructor
  · intro h
    show (if runwayDays (dailyBalances txns recs starting_balance forecast_days)
          forecast_days ≤ 30 then
        create_low_balance_notification store
          (runwayDays (dailyBalances txns recs starting_balance forecast_days) forecast_days)
          (minBalanceDay (dailyBalances txns recs starting_balance forecast_days)).balance
      else store) = store
    have h' : ¬ (runwayDays (dailyBalances txns recs starting_balance forecast_days)
        forecast_days ≤ 30) := not_le.mpr h
    rw [if_neg h']
  · intro h
    constructor
    · intro hex
      show (if runwayDays (dailyBalances txns recs starting_balance forecast_days)
            forecast_days ≤ 30 then
          create_low_balance_notification store
            (runwayDays (dailyBalances txns recs starting_balance forecast_days) forecast_days)
            (minBalanceDay (dailyBalances txns recs starting_balance forecast_days)).balance
        else store) = store
      have h' : runwayDays (dailyBalances txns recs starting_balance forecast_days)
          forecast_days ≤ 30 := h
      rw [if_pos h']
      unfold create_low_balance_notification
      rw [if_pos hex]
    · intro hex
      show (if runwayDays (dailyBalances txns recs starting_balance forecast_days)
            forecast_days ≤ 30 then
          create_low_balance_notification store
            (runwayDays (dailyBalances txns recs starting_balance forecast_days) forecast_days)
            (minBalanceDay (dailyBalances txns recs starting_balance forecast_days)).balance
        else store) =
        store ++ [⟨"low_balance", 0,
          runwayDays (dailyBalances txns recs starting_balance forecast_days) forecast_days,
          (minBalanceDay (dailyBalances txns recs starting_balance forecast_days)).balance⟩]
      have h' : runwayDays (dailyBalances txns recs starting_balance forecast_days)
          forecast_days ≤ 30 := h
      rw [if_pos h']
      unfold create_low_balance_notification
      rw [if_neg (by rw [hex]; exact Bool.false_ne_true)]

/-- C7 witness. -/
theorem C7_store_effect_witness :
    30 < (forecast_balance [] [] [] 1000 31).1.runway_days ∧
      (forecast_balance [] [] [] 1000 31).2 = ([] : List Notification) := by
  have hrun : (forecast_balance [] [] [] 1000 31).1.runway_days = 31 + 1 :=
    runway_sentinel [] [] 1000 31 (by norm_num)
      (fun k _ => by rw [dayIncome_nil, dayExpenses_nil]; norm_num)
  exact ⟨by rw [hrun]; norm_num,
    (C7_store_effect [] [] [] 1000 31).1 (by rw [hrun]; norm_num)⟩

/-- The active recurring transactions of type `tt` due on day `d` (the
rows the inner loop of `forecast_balance` adds up for that day). -/
def dueOnDay (recs : List RecurringTransaction) (tt : TransactionType) (d : ℕ) :
    List RecurringTransaction :=
  recs.filter (fun r => r.is_active && decide (r.ttype = tt) && is_due_on_date r d)

lemma dueSum_eq (recs : List RecurringTransaction) (tt : TransactionType) (d : ℕ) :
    dueSum recs tt d = ((dueOnDay recs tt d).map (·.amount)).sum := rfl

lemma dueSum_pos (recs : List RecurringTransaction) (tt : TransactionType) (d : ℕ)
    (hpos : ∀ r ∈ recs, 0 < r.amount) (hne : dueOnDay recs tt d ≠ []) :
    0 < dueSum recs tt d := by
  rw [dueSum_eq]
  apply List.sum_pos
  · intro x hx
    obtain ⟨r, hr, rfl⟩ := List.mem_map.mp hx
    exact hpos r (List.mem_of_mem_filter hr)
  · simpa using hne

/-- C8: recurring-declared activity takes precedence over the historical
fallback and the two are never summed: when at least one active recurring
expense is due on a day (all obligation amounts being positive), the
day's expense figure is exactly the sum of the due recurring expense
amounts; only when none is due does it equal the historical daily expense
average — and symmetrically for the day's income figure. -/
theorem C8_recurring_precedence (txns : List Transaction)
    (recs : List RecurringTransaction) (d : ℕ) (hpos : ∀ r ∈ recs, 0 < r.amount) :
    ((dueOnDay recs TransactionType.expense d ≠ [] →
        dayExpenses txns recs d = dueSum recs TransactionType.expense d) ∧
      (dueOnDay recs TransactionType.expense d = [] →
        dayExpenses txns recs d = historicalDailyAverage txns TransactionType.expense)) ∧
    ((dueOnDay recs TransactionType.income d ≠ [] →
        dayIncome txns recs d = dueSum recs TransactionType.income d) ∧
      (dueOnDay recs TransactionType.income d = [] →
        dayIncome txns recs d = historicalDailyAverage txns TransactionType.income)) := by
  constructor
  · constructor
    · intro hne
      unfold dayExpenses
      rw [if_neg (ne_of_gt (dueSum_pos recs TransactionType.expense d hpos hne))]
    · intro hnil
      unfold dayExpenses
      rw [if_pos]
      rw [dueSum_eq, hnil]
      simp
  · constructor
    · intro hne
      unfold dayIncome
      rw [if_neg (ne_of_gt (dueSum_pos recs TransactionType.income d hpos hne))]
    · intro hnil
      unfold dayIncome
      rw [if_pos]
      rw [dueSum_eq, hnil]
      simp

/-- C8 witness. -/
theorem C8_recurring_precedence_witness :
    (∀ r ∈ [(⟨TransactionType.expense, 100, 1, true⟩ : RecurringTransaction)],
        0 < r.amount) ∧
      (dueOnDay [(⟨TransactionType.expense, 100, 1, true⟩ : RecurringTransaction)]
          TransactionType.expense 1 ≠ [] →
        dayExpenses [] [⟨TransactionType.expense, 100, 1, true⟩] 1 =
          dueSum [⟨TransactionType.expense, 100, 1, true⟩] TransactionType.expense 1) := by
  have hpos : ∀ r ∈ [(⟨TransactionType.expense, 100, 1, true⟩ : RecurringTransaction)],
      0 < r.amount := by
    intro r hr
    rw [List.mem_singleton] at hr
    subst hr
    norm_num
  exact ⟨hpos,
    (C8_recurring_precedence [] [⟨TransactionType.expense, 100, 1, true⟩] 1 hpos).1.1⟩

/- ------------------------------------------------------------------
   Claim C9: goal projector
   ------------------------------------------------------------------ -/

lemma status_achieved_iff (c t n a : ℚ) :
    determine_status c t n a = "achieved" ↔ t ≤ c := by
  unfold determine_status
  split_ifs with h1 h2 h3 <;> simp_all

lemma status_behind_iff (c t n a : ℚ) :
    determine_status c t n a = "behind" ↔ c < t ∧ a * 1.2 < n := by
  unfold determine_status
  split_ifs with h1 h2 h3 <;> simp_all

lemma status_at_risk_iff (c t n a : ℚ) :
    determine_status c t n a = "at-risk" ↔ c < t ∧ n ≤ a * 1.2 ∧ a < n := by
  unfold determine_status
  split_ifs with h1 h2 h3 <;> simp_all

lemma status_on_track_iff (c t n a : ℚ) :
    determine_status c t n a = "on-track" ↔ c < t ∧ n ≤ a * 1.2 ∧ n ≤ a := by
  unfold determine_status
  split_ifs with h1 h2 h3 <;> simp_all

/-- C9: the status classification of `calculate_goal_projection` —
`achieved` iff current ≥ target; else `behind` iff the required monthly
contribution exceeds 1.2 × the available monthly surplus; else `at-risk`
iff it exceeds the surplus; else `on-track` — and the §8 example: target
10000, current 2000, 6 months remaining, surplus 1000 gives required
contribution 1333.33 and status `behind`. -/
theorem C9_goal_status :
    (∀ (target_amount current_amount : ℚ) (now target_date : YMDate)
        (monthly_income monthly_expenses : ℚ),
      ((calculate_goal_projection target_amount current_amount now target_date
            monthly_income monthly_expenses).status = "achieved" ↔
        target_amount ≤ current_amount) ∧
      ((calculate_goal_projection target_amount current_amount now target_date
            monthly_income monthly_expenses).status = "behind" ↔
        current_amount < target_amount ∧
          (monthly_income - monthly_expenses) * 1.2 <
            neededContribution target_amount current_amount now target_date) ∧
      ((calculate_goal_projection target_amount current_amount now target_date
            monthly_income monthly_expenses).status = "at-risk" ↔
        current_amount < target_amount ∧
          neededContribution target_amount current_amount now target_date ≤
            (monthly_income - monthly_expenses) * 1.2 ∧
          monthly_income - monthly_expenses <
            neededContribution target_amount current_amount now target_date) ∧
      ((calculate_goal_projection target_amount current_amount now target_date
            monthly_income monthly_expenses).status = "on-track" ↔
        current_amount < target_amount ∧
          neededContribution target_amount current_amount now target_date ≤
            (monthly_income - monthly_expenses) * 1.2 ∧
          neededContribution target_amount current_amount now target_date ≤
            monthly_income - monthly_expenses)) ∧
    (calculate_goal_projection 10000 2000 ⟨2025, 1⟩ ⟨2025, 7⟩ 3000
        2000).months_remaining = 6 ∧
    (calculate_goal_projection 10000 2000 ⟨2025, 1⟩ ⟨2025, 7⟩ 3000
        2000).available_monthly = 1000 ∧
    (calculate_goal_projection 10000 2000 ⟨2025, 1⟩ ⟨2025, 7⟩ 3000
        2000).monthly_contribution_needed = 1333.33 ∧
    (calculate_goal_projection 10000 2000 ⟨2025, 1⟩ ⟨2025, 7⟩ 3000
        2000).status = "behind" := by
  have hstatus : ∀ (t c : ℚ) (now td : YMDate) (inc exp : ℚ),
      (calculate_goal_projection t c now td inc exp).status =
        determine_status c t (neededContribution t c now td) (inc - exp) := fun _ _ _ _ _ _ => rfl
  refine ⟨?_, ?_, ?_, ?_, ?_⟩
  · intro t c now td inc exp
    rw [hstatus]
    exact ⟨status_achieved_iff _ _ _ _, status_behind_iff _ _ _ _,
      status_at_risk_iff _ _ _ _, status_on_track_iff _ _ _ _⟩
  · show goalMonthsRemaining ⟨2025, 1⟩ ⟨2025, 7⟩ = 6
    norm_num [goalMonthsRemaining]
  · show round2 (3000 - 2000) = 1000
    norm_num [round2, rhe]
  · show round2 (neededContribution 10000 2000 ⟨2025, 1⟩ ⟨2025, 7⟩) = 1333.33
    have h6 : goalMonthsRemaining ⟨2025, 1⟩ ⟨2025, 7⟩ = 6 := by
      norm_num [goalMonthsRemaining]
    rw [neededContribution, h6]
    norm_num [round2, rhe]
  · rw [hstatus]
    have h6 : goalMonthsRemaining ⟨2025, 1⟩ ⟨2025, 7⟩ = 6 := by
      norm_num [goalMonthsRemaining]
    rw [status_behind_iff, neededContribution, h6]
    norm_num

/- ------------------------------------------------------------------
   Claim C1: the §8 forecast example
   ------------------------------------------------------------------ -/

/-- The C1 scenario's recurring obligations: an expense of 100 due on
each forecast day 1..5 (under `_is_due_on_date` a recurring row is due
exactly on its `next_date`, so the daily expense is realized by one row
per forecast day). -/
def c1recs : List RecurringTransaction :=
  [⟨TransactionType.expense, 100, 1, true⟩, ⟨TransactionType.expense, 100, 2, true⟩,
   ⟨TransactionType.expense, 100, 3, true⟩, ⟨TransactionType.expense, 100, 4, true⟩,
   ⟨TransactionType.expense, 100, 5, true⟩]

lemma c1_dayIncome (d : ℕ) : dayIncome [] c1recs d = 0 := rfl

lemma c1_dayExpenses_zero : dayExpenses [] c1recs 0 = 0 := rfl

lemma c1_dayExpenses_one : dayExpenses [] c1recs 1 = 100 := by
  unfold dayExpenses
  norm_num [show dueSum c1recs TransactionType.expense 1 = [(100 : ℚ)].sum from rfl]

lemma c1_dayExpenses_two : dayExpenses [] c1recs 2 = 100 := by
  unfold dayExpenses
  norm_num [show dueSum c1recs TransactionType.expense 2 = [(100 : ℚ)].sum from rfl]

lemma c1_dayExpenses_three : dayExpenses [] c1recs 3 = 100 := by
  unfold dayExpenses
  norm_num [show dueSum c1recs TransactionType.expense 3 = [(100 : ℚ)].sum from rfl]

lemma c1_dayExpenses_four : dayExpenses [] c1recs 4 = 100 := by
  unfold dayExpenses
  norm_num [show dueSum c1recs TransactionType.expense 4 = [(100 : ℚ)].sum from rfl]

lemma c1_dayExpenses_five : dayExpenses [] c1recs 5 = 100 := by
  unfold dayExpenses
  norm_num [show dueSum c1recs TransactionType.expense 5 = [(100 : ℚ)].sum from rfl]

lemma c1_balance_zero : balanceAfter [] c1recs 1000 0 = 1000 := by
  unfold balanceAfter
  rw [show List.range 1 = [0] from rfl]
  simp only [List.map_cons, List.map_nil, List.sum_cons, List.sum_nil,
    c1_dayIncome, c1_dayExpenses_zero]
  norm_num

lemma c1_balance_one : balanceAfter [] c1recs 1000 1 = 900 := by
  unfold balanceAfter
  rw [show List.range 2 = [0, 1] from rfl]
  simp only [List.map_cons, List.map_nil, List.sum_cons, List.sum_nil,
    c1_dayIncome, c1_dayExpenses_zero, c1_dayExpenses_one]
  norm_num

lemma c1_balance_two : balanceAfter [] c1recs 1000 2 = 800 := by
  unfold balanceAfter
  rw [show List.range 3 = [0, 1, 2] from rfl]
  simp only [List.map_cons, List.map_nil, List.sum_cons, List.sum_nil,
    c1_dayIncome, c1_dayExpenses_zero, c1_dayExpenses_one, c1_dayExpenses_two]
  norm_num

lemma c1_balance_three : balanceAfter [] c1recs 1000 3 = 700 := by
  unfold balanceAfter
  rw [show List.range 4 = [0, 1, 2, 3] from rfl]
  simp only [List.map_cons, List.map_nil, List.sum_cons, List.sum_nil,
    c1_dayIncome, c1_dayExpenses_zero, c1_dayExpenses_one, c1_dayExpenses_two,
    c1_dayExpenses_three]
  norm_num

lemma c1_balance_four : balanceAfter [] c1recs 1000 4 = 600 := by
  unfold balanceAfter
  rw [show List.range 5 = [0, 1, 2, 3, 4] from rfl]
  simp only [List.map_cons, List.map_nil, List.sum_cons, List.sum_nil,
    c1_dayIncome, c1_dayExpenses_zero, c1_dayExpenses_one, c1_dayExpenses_two,
    c1_dayExpenses_three, c1_dayExpenses_four]
  norm_num

lemma c1_balance_five : balanceAfter [] c1recs 1000 5 = 500 := by
  unfold balanceAfter
  rw [show List.range 6 = [0, 1, 2, 3, 4, 5] from rfl]
  simp only [List.map_cons, List.map_nil, List.sum_cons, List.sum_nil,
    c1_dayIncome, c1_dayExpenses_zero, c1_dayExpenses_one, c1_dayExpenses_two,
    c1_dayExpenses_three, c1_dayExpenses_four, c1_dayExpenses_five]
  norm_num

/-- C1: with starting balance 1000, a recurring expense of 100 due on
every forecast day, no income and no history, the 5-day forecast yields
the daily balance series `[1000, 900, 800, 700, 600, 500]` and the
runway sentinel `forecast_days + 1 = 6` (the balance never reaches `≤ 0`
within the horizon). -/
theorem C1_forecast_example :
    (forecast_balance [] [] c1recs 1000 5).1.daily_balances.map (·.balance)
        = [1000, 900, 800, 700, 600, 500] ∧
      (forecast_balance [] [] c1recs 1000 5).1.runway_days = 5 + 1 := by
  constructor
  · have hmap : (forecast_balance [] [] c1recs 1000 5).1.daily_balances.map (·.balance)
        = [round2 (balanceAfter [] c1recs 1000 0), round2 (balanceAfter [] c1recs 1000 1),
           round2 (balanceAfter [] c1recs 1000 2), round2 (balanceAfter [] c1recs 1000 3),
           round2 (balanceAfter [] c1recs 1000 4), round2 (balanceAfter [] c1recs 1000 5)] := rfl
    rw [hmap, c1_balance_zero, c1_balance_one, c1_balance_two, c1_balance_three,
      c1_balance_four, c1_balance_five]
    norm_num [round2, rhe]
  · show runwayDays (dailyBalances [] c1recs 1000 5) 5 = 5 + 1
    unfold runwayDays
    rw [List.findIdx?_eq_none_iff.mpr]
    intro p hp
    obtain ⟨d, hd, rfl⟩ := List.mem_map.mp hp
    rw [show List.range (5 + 1) = [0, 1, 2, 3, 4, 5] from rfl] at hd
    apply decide_eq_false
    simp only [List.mem_cons, List.not_mem_nil, or_false] at hd
    rcases hd with rfl | rfl | rfl | rfl | rfl | rfl
    · show ¬ round2 (balanceAfter [] c1recs 1000 0) ≤ 0
      rw [c1_balance_zero]
      norm_num [round2, rhe]
    · show ¬ round2 (balanceAfter [] c1recs 1000 1) ≤ 0
      rw [c1_balance_one]
      norm_num [round2, rhe]
    · show ¬ round2 (balanceAfter [] c1recs 1000 2) ≤ 0
      rw [c1_balance_two]
      norm_num [round2, rhe]
    · show ¬ round2 (balanceAfter [] c1recs 1000 3) ≤ 0
      rw [c1_balance_three]
      norm_num [round2, rhe]
    · show ¬ round2 (balanceAfter [] c1recs 1000 4) ≤ 0
      rw [c1_balance_four]
      norm_num [round2, rhe]
    · show ¬ round2 (balanceAfter [] c1recs 1000 5) ≤ 0
      rw [c1_balance_five]
      norm_num [round2, rhe]

end FinWise
